import Mathlib

/-!
Shallow embedding of the ThumbnailGo server controller
(`src/server/controllers/ThumbnailController.ts` and the controller
revisions in `src/unnamed/part_000`..`part_002`).

Namespace map:
* `ThumbnailGo.V0` — the controller variant in `src/unnamed/part_000`
  (multi-provider fallback chain, delete handler with 404 check).
* `ThumbnailGo.V1` — the delete handler variant in `src/unnamed/part_001`
  (same ownership filter, but no 404 check).
* `ThumbnailGo.TC` — `src/server/controllers/ThumbnailController.ts`
  (single provider retried three times, catch block without record update).

Outbound effects (network calls, filesystem writes, document-store saves)
are modelled by explicit oracles in an environment structure, and each run
produces a trace of events, the final in-memory record, the final
filesystem contents and the final document store.
-/

namespace ThumbnailGo

/-- JavaScript truthiness of a possibly-absent string: `undefined`, `null`
and `""` are falsy, every other string is truthy. -/
def truthy : Option String → Bool
  | none => false
  | some s => !s.isEmpty

/-- The persisted `Thumbnail` document (`server/models/Thumbnail.ts` shape as
used by the controllers): owner id, request parameters, generation flag and
the two outcome fields. -/
structure ThumbRec where
  _id : String
  userId : String
  title : String
  prompt_used : String
  style : String
  aspect_ratio : String
  color_scheme : String
  text_overlay : Bool
  isGenerating : Bool
  image_url : Option String
  error : Option String
deriving DecidableEq, Repr

/-- Observable events of one request: record creation, backoff sleeps,
outbound image-provider calls (by index), the storage upload call, and
transient-file writes/deletes. -/
inductive Ev where
  | recordCreate : Ev
  | sleep : Nat → Ev
  | netAttempt : Nat → Ev
  | netUpload : Ev
  | fsWrite : String → Ev
  | fsUnlink : String → Ev
deriving DecidableEq, Repr

/-- Indices of the provider attempts recorded in a trace, in order. -/
def attemptsOf (evs : List Ev) : List Nat :=
  evs.filterMap fun e => match e with | Ev.netAttempt i => some i | _ => none

/-- Durations of the backoff sleeps recorded in a trace, in order. -/
def sleepsOf (evs : List Ev) : List Nat :=
  evs.filterMap fun e => match e with | Ev.sleep n => some n | _ => none

/-- Whether an event is an outbound network call. -/
def isNet : Ev → Bool
  | Ev.netAttempt _ => true
  | Ev.netUpload => true
  | _ => false

/-- `typeof v === "string" && v.trim() ? v.trim() : dflt` — the "SAFE VALUES"
normalisation applied to `style`, `aspect_ratio` and `color_scheme`. -/
def cleanString (v : Option String) (dflt : String) : String :=
  match v with
  | some s => if s.trim.isEmpty then dflt else s.trim
  | none => dflt

/-- The incoming generate request: session identity and body fields.
Absent body fields are `none`. -/
structure GenRequest where
  sessionUserId : Option String
  title : Option String
  user_prompt : Option String
  style : Option String
  aspect_ratio : Option String
  color_scheme : Option String
  text_overlay : Option Bool
deriving DecidableEq, Repr

/-- Result of one generate request: HTTP status, the in-memory record at
response time (as included in the response body), the `error` field of a 500
body, the event trace, the final transient-filesystem contents and the final
document store. -/
structure GenResult where
  status : Nat
  record : Option ThumbRec
  respError : Option String
  trace : List Ev
  fs : List String
  store : List ThumbRec
deriving DecidableEq, Repr

/-- Result of one delete request: HTTP status and the final store. -/
structure DelResult where
  status : Nat
  store : List ThumbRec
deriving DecidableEq, Repr

/-- The Mongoose filter `{ _id: id, userId }`.  When the session has no
`userId` the field is `undefined`, and Mongoose strips undefined values from
query filters, so a `none` identity places no constraint on the owner. -/
def queryMatches (mid : String) (uid : Option String) (r : ThumbRec) : Bool :=
  r._id == mid && (match uid with | none => true | some u => r.userId == u)

/-- `Thumbnail.findOneAndDelete({ _id: id, userId })`: deletes the first
matching document and returns it ( `none` when nothing matched). -/
def findOneAndDelete (store : List ThumbRec) (mid : String) (uid : Option String) :
    Option ThumbRec × List ThumbRec :=
  match store.find? (queryMatches mid uid) with
  | none => (none, store)
  | some r => (some r, store.eraseP (queryMatches mid uid))

/-- `thumbnail.save()` persisted state: replace the stored document carrying
the record's id by the record's current state. -/
def saveTo (store : List ThumbRec) (r : ThumbRec) : List ThumbRec :=
  store.map fun x => if x._id == r._id then r else x

/-- `path.join("images", \x60thumbnail-${Date.now()}.png\x60)` — the transient
staging path of a request. -/
def tmpPath (now : Nat) : String :=
  "images/thumbnail-" ++ toString now ++ ".png"

/-- The document handed to `Thumbnail.create` by both generate handlers:
owner from the session, `title || ""`, `prompt_used` from the body prompt,
the three normalised keys, `text_overlay ?? true`, `isGenerating: true`. -/
def mkRec (newId : String) (req : GenRequest) : ThumbRec :=
  { _id := newId
    userId := req.sessionUserId.getD ""
    title := req.title.getD ""
    prompt_used := req.user_prompt.getD ""
    style := cleanString req.style "Bold & Graphic"
    aspect_ratio := cleanString req.aspect_ratio "16:9"
    color_scheme := cleanString req.color_scheme "vibrant"
    text_overlay := req.text_overlay.getD true
    isGenerating := true
    image_url := none
    error := none }

namespace V0

/-- `stylePrompts` table of `src/unnamed/part_000`. -/
def stylePrompts : String → Option String
  | "Bold & Graphic" =>
      some "eye-catching thumbnail, bold typography, vibrant colors, dramatic lighting, high contrast"
  | "Tech/Futuristic" =>
      some "futuristic thumbnail, glowing UI, cyber-tech aesthetic, neon accents"
  | "Minimalist" => some "minimalist thumbnail, clean layout, modern flat design"
  | "Photorealistic" => some "photorealistic thumbnail, DSLR lighting, sharp details"
  | "Illustrated" => some "illustrated thumbnail, cartoon/vector style, vibrant colors"
  | _ => none

/-- `colorSchemeDescriptions` table of `src/unnamed/part_000`. -/
def colorSchemeDescriptions : String → Option String
  | "vibrant" => some "vibrant energetic colors"
  | "sunset" => some "warm sunset tones"
  | "forest" => some "natural green tones"
  | "neon" => some "neon cyberpunk colors"
  | "purple" => some "purple magenta palette"
  | "monochrome" => some "black and white contrast"
  | "ocean" => some "cool blue teal tones"
  | "pastel" => some "soft pastel colors"
  | _ => none

/-- `if (title) prompt += \x60 for "${title}"\x60` — the title clause. -/
def titlePart (title : Option String) : String :=
  if truthy title then " for \"" ++ title.getD "" ++ "\"" else ""

/-- The optional color-scheme clause: appended only when the key is in the
table. -/
def colorPart (c : String) : String :=
  match colorSchemeDescriptions c with
  | some d => ", " ++ d
  | none => ""

/-- `if (user_prompt) prompt += \x60. ${user_prompt}\x60` — the free-text clause. -/
def userPart (up : Option String) : String :=
  if truthy up then ". " ++ up.getD "" else ""

/-- The prompt composer of `src/unnamed/part_000` `generateThumbnail`
(lines 139-154): style clause (default phrase on unknown key), optional
title, optional color clause, optional free text, fixed suffix. -/
def buildPrompt (cleanStyle cleanColor : String) (title up : Option String) : String :=
  "Create a " ++ (stylePrompts cleanStyle).getD "bold thumbnail"
    ++ titlePart title ++ colorPart cleanColor ++ userPart up
    ++ ". YouTube thumbnail, high CTR, 16:9 composition"

/-- `aspectMap` of `src/unnamed/part_000` (four entries). -/
def aspectMap : String → Option (Nat × Nat)
  | "16:9" => some (1024, 576)
  | "1:1" => some (1024, 1024)
  | "9:16" => some (576, 1024)
  | "4:3" => some (1024, 768)
  | _ => none

/-- `aspectMap[cleanAspect] || { width: 1024, height: 576 }`. -/
def dimensions (a : String) : Nat × Nat :=
  (aspectMap a).getD (1024, 576)

/-- The provider loop of `generateImageWithFallbacks`: at index `i > 0`
sleep `1000 * 2 ^ (i - 1)` ms, then attempt provider `i`; return its payload
on success; on failure move on, throwing `All image services failed` after
the last provider.  The outcome of each provider attempt is supplied as an
oracle (`some` payload or `none` for a throw). -/
def fallbackRun : Nat → List (Option Nat) → List Ev × Except String Nat
  | _, [] => ([], Except.error "No image services available")
  | i, o :: rest =>
    let pre : List Ev := if i > 0 then [Ev.sleep (1000 * 2 ^ (i - 1))] else []
    match o with
    | some a => (pre ++ [Ev.netAttempt i], Except.ok a)
    | none =>
      if rest.isEmpty then
        (pre ++ [Ev.netAttempt i], Except.error "All image services failed")
      else
        let r := fallbackRun (i + 1) rest
        (pre ++ [Ev.netAttempt i] ++ r.1, r.2)

/-- `generateImageWithFallbacks` of `src/unnamed/part_000` (lines 278-298),
run over the ordered list of provider-attempt outcomes. -/
def generateImageWithFallbacks (outcomes : List (Option Nat)) :
    List Ev × Except String Nat :=
  fallbackRun 0 outcomes

/-- Oracles for the effectful steps of one `part_000` generate request. -/
structure GenEnv where
  newId : String
  now : Nat
  createOk : Bool
  providers : List (Option Nat)
  fsWriteOk : Bool
  uploadResult : Option String
  saveOk : Bool
  unlinkOk : Bool
  errorSaveOk : Bool
deriving DecidableEq, Repr

/-- The catch block of `part_000` `generateThumbnail` (lines 198-213): if a
record exists, set `isGenerating := false` and
`error := error.message || "Generation failed"`, best-effort save it
(`.catch(() => \x7b\x7d)` — a save failure only skips the store write), and
respond 500 with the record and the original message. -/
def catchBlock (env : GenEnv) (thumb : Option ThumbRec) (msg : String)
    (tr : List Ev) (fsNow : List String) (st : List ThumbRec) : GenResult :=
  match thumb with
  | none => ⟨500, none, some msg, tr, fsNow, st⟩
  | some r =>
    let r2 : ThumbRec :=
      { r with isGenerating := false,
               error := some (if msg.isEmpty then "Generation failed" else msg) }
    let st2 := if env.errorSaveOk then saveTo st r2 else st
    ⟨500, some r2, some msg, tr, fsNow, st2⟩

/-- `generateThumbnail` of `src/unnamed/part_000` (lines 92-214): auth guard,
record creation, prompt build, fallback image acquisition, transient file
write, storage upload, completion update and save, transient file delete;
any throw lands in `catchBlock`. -/
def generateThumbnail (env : GenEnv) (req : GenRequest) (store0 : List ThumbRec) :
    GenResult :=
  if !truthy req.sessionUserId then
    ⟨401, none, none, [], [], store0⟩
  else
    let cleanStyle := cleanString req.style "Bold & Graphic"
    let cleanAspect := cleanString req.aspect_ratio "16:9"
    let cleanColor := cleanString req.color_scheme "vibrant"
    if !env.createOk then
      catchBlock env none "create failed" [] [] store0
    else
      let rec0 := mkRec env.newId req
      let st1 := store0 ++ [rec0]
      let _prompt := buildPrompt cleanStyle cleanColor req.title req.user_prompt
      let _dims := dimensions cleanAspect
      let acq := generateImageWithFallbacks env.providers
      let tr2 := Ev.recordCreate :: acq.1
      match acq.2 with
      | Except.error msg => catchBlock env (some rec0) msg tr2 [] st1
      | Except.ok _img =>
        let filepath := tmpPath env.now
        if !env.fsWriteOk then
          catchBlock env (some rec0) "file write failed" tr2 [] st1
        else
          let tr3 := tr2 ++ [Ev.fsWrite filepath]
          match env.uploadResult with
          | none =>
            catchBlock env (some rec0) "upload failed"
              (tr3 ++ [Ev.netUpload]) [filepath] st1
          | some url =>
            let tr4 := tr3 ++ [Ev.netUpload]
            let rec1 : ThumbRec :=
              { rec0 with image_url := some url, isGenerating := false }
            if !env.saveOk then
              catchBlock env (some rec1) "save failed" tr4 [filepath] st1
            else
              let st2 := saveTo st1 rec1
              if !env.unlinkOk then
                catchBlock env (some rec1) "unlink failed" tr4 [filepath] st2
              else
                ⟨200, some rec1, none, tr4 ++ [Ev.fsUnlink filepath], [], st2⟩

/-- `deleteThumbnail` of `src/unnamed/part_000` (lines 300-315): owner-scoped
`findOneAndDelete`, 404 when nothing matched, 200 otherwise. -/
def deleteThumbnail (store : List ThumbRec) (mid : String)
    (sessionUserId : Option String) : DelResult :=
  let r := findOneAndDelete store mid sessionUserId
  match r.1 with
  | none => ⟨404, r.2⟩
  | some _ => ⟨200, r.2⟩

end V0

namespace V1

/-- `deleteThumbnail` of `src/unnamed/part_001` (lines 159-170): the same
owner-scoped `findOneAndDelete`, but the result is not checked — the handler
responds 200 whether or not anything was deleted. -/
def deleteThumbnail (store : List ThumbRec) (mid : String)
    (sessionUserId : Option String) : DelResult :=
  ⟨200, (findOneAndDelete store mid sessionUserId).2⟩

end V1

namespace TC

/-- `stylePrompts` table of `src/server/controllers/ThumbnailController.ts`. -/
def stylePrompts : String → Option String
  | "Bold & Graphic" =>
      some "eye-catching thumbnail, bold typography, vibrant colors, expressive facial reaction, dramatic lighting, high contrast, click-worthy composition, professional style"
  | "Tech/Futuristic" =>
      some "futuristic thumbnail, sleek modern design, digital UI elements, glowing accents, holographic effects, cyber-tech aesthetic, sharp lighting, high-tech atmosphere"
  | "Minimalist" =>
      some "minimalist thumbnail, clean layout, simple shapes, limited color palette, plenty of negative space, modern flat design, clear focal point"
  | "Photorealistic" =>
      some "photorealistic thumbnail, ultra-realistic lighting, natural skin tones, candid moment, DSLR-style photography, lifestyle realism, shallow depth of field"
  | "Illustrated" =>
      some "illustrated thumbnail, custom digital illustration, stylized characters, bold outlines, vibrant colors, creative cartoon or vector art style"
  | _ => none

/-- `colorSchemeDescriptions` table of `ThumbnailController.ts`. -/
def colorSchemeDescriptions : String → Option String
  | "vibrant" =>
      some "vibrant and energetic colors, high saturation, bold contrasts, eye-catching palette"
  | "sunset" =>
      some "warm sunset tones, orange pink and purple hues, soft gradients, cinematic glow"
  | "forest" =>
      some "natural green tones, earthy colors, calm and organic palette, fresh atmosphere"
  | "neon" =>
      some "neon glow effects, electric blues and pinks, cyberpunk lighting, high contrast glow"
  | "purple" =>
      some "purple-dominant color palette, magenta and violet tones, modern and stylish mood"
  | "monochrome" =>
      some "black and white color scheme, high contrast, dramatic lighting, timeless aesthetic"
  | "ocean" =>
      some "cool blue and teal tones, aquatic color palette, fresh and clean atmosphere"
  | "pastel" =>
      some "soft pastel colors, low saturation, gentle tones, calm and friendly aesthetic"
  | _ => none

/-- Template-literal interpolation of a possibly-absent value: an absent
`title` renders as the string `undefined`. -/
def interp (o : Option String) : String :=
  match o with
  | some s => s
  | none => "undefined"

/-- The color-scheme clause of `ThumbnailController.ts`: appended only when
the key is in the table. -/
def colorPart (c : String) : String :=
  match colorSchemeDescriptions c with
  | some d => " Use a " ++ d ++ " color scheme."
  | none => ""

/-- The free-text clause of `ThumbnailController.ts`. -/
def userPart (up : Option String) : String :=
  if truthy up then " Additional details: " ++ up.getD "" ++ "." else ""

/-- The prompt composer of `ThumbnailController.ts` `generateThumbnail`
(lines 79-97): style clause (default phrase on unknown key), title always
interpolated, optional color clause, optional free text, aspect-ratio
suffix. -/
def buildPrompt (cleanStyle cleanColor cleanAspect : String)
    (title up : Option String) : String :=
  "Create a " ++ (stylePrompts cleanStyle).getD "bold graphic thumbnail"
    ++ " for: \"" ++ interp title ++ "\"" ++ colorPart cleanColor ++ userPart up
    ++ " Thumbnail " ++ cleanAspect ++ ", visually stunning, high CTR."

/-- `aspectMap` of `ThumbnailController.ts` (three entries, no `4:3` row). -/
def aspectMap : String → Option String
  | "16:9" => some "1024x576"
  | "1:1" => some "1024x1024"
  | "9:16" => some "576x1024"
  | _ => none

/-- Numeric value of a decimal digit character. -/
def digitVal (c : Char) : Option Nat :=
  if '0' ≤ c ∧ c ≤ '9' then some (c.toNat - '0'.toNat) else none

/-- `Number(s)` on the strings this controller feeds it: decimal digit
strings evaluate to their value, `""` to `0`, anything else to `NaN`
(modelled as `none`). -/
def numberOf (cs : List Char) : Option Nat :=
  cs.foldl
    (fun acc c =>
      match acc, digitVal c with
      | some n, some d => some (n * 10 + d)
      | _, _ => none)
    (some 0)

/-- `s.split("x")` on the character list of `s`. -/
def splitOnX : List Char → List (List Char)
  | [] => [[]]
  | c :: cs =>
    match splitOnX cs with
    | [] => [[]]
    | g :: gs => if c = 'x' then [] :: g :: gs else (c :: g) :: gs

/-- `.split("x").map(Number)` followed by `[width, height]` destructuring
(`NaN` widths rendered as `0`; unreachable for the table's strings). -/
def parseDims (s : String) : Nat × Nat :=
  match (splitOnX s.data).map (fun cs => (numberOf cs).getD 0) with
  | w :: h :: _ => (w, h)
  | _ => (0, 0)

/-- `(aspectMap[cleanAspect] || "1024x576").split("x").map(Number)`. -/
def dimensions (a : String) : Nat × Nat :=
  parseDims ((aspectMap a).getD "1024x576")

/-- The retry loop of `ThumbnailController.ts` (lines 119-138): up to three
attempts against the same provider URL; the payload of the first success is
kept; the third failure rethrows.  The outcome of each attempt is supplied
as an oracle. -/
def retryFetch : Nat → List (Option Nat) → List Ev × Except String Nat
  | _, [] => ([], Except.error "no attempts")
  | i, o :: rest =>
    match o with
    | some a => ([Ev.netAttempt i], Except.ok a)
    | none =>
      if rest.isEmpty then ([Ev.netAttempt i], Except.error "request failed")
      else
        let r := retryFetch (i + 1) rest
        (Ev.netAttempt i :: r.1, r.2)

/-- Oracles for the effectful steps of one `ThumbnailController.ts` generate
request. -/
structure TCEnv where
  newId : String
  now : Nat
  createOk : Bool
  attempts : List (Option Nat)
  fsWriteOk : Bool
  uploadResult : Option String
  saveOk : Bool
  unlinkOk : Bool
deriving DecidableEq, Repr

/-- `generateThumbnail` of `ThumbnailController.ts` (lines 40-165).  Unlike
the `part_000` variant, the catch block (lines 161-164) only responds
`500 \x7b message \x7d`: it does not touch the created record, which therefore
stays in the store with `isGenerating = true` and neither outcome field
set. -/
def generateThumbnail (env : TCEnv) (req : GenRequest) (store0 : List ThumbRec) :
    GenResult :=
  if !truthy req.sessionUserId then
    ⟨401, none, none, [], [], store0⟩
  else
    let cleanStyle := cleanString req.style "Bold & Graphic"
    let cleanAspect := cleanString req.aspect_ratio "16:9"
    let cleanColor := cleanString req.color_scheme "vibrant"
    if !env.createOk then
      ⟨500, none, some "create failed", [], [], store0⟩
    else
      let rec0 := mkRec env.newId req
      let st1 := store0 ++ [rec0]
      let _prompt := buildPrompt cleanStyle cleanColor cleanAspect req.title req.user_prompt
      let _dims := dimensions cleanAspect
      let acq := retryFetch 0 env.attempts
      let tr2 := Ev.recordCreate :: acq.1
      match acq.2 with
      | Except.error msg => ⟨500, none, some msg, tr2, [], st1⟩
      | Except.ok _img =>
        let filepath := tmpPath env.now
        if !env.fsWriteOk then
          ⟨500, none, some "file write failed", tr2, [], st1⟩
        else
          let tr3 := tr2 ++ [Ev.fsWrite filepath]
          match env.uploadResult with
          | none =>
            ⟨500, none, some "upload failed", tr3 ++ [Ev.netUpload], [filepath], st1⟩
          | some url =>
            let tr4 := tr3 ++ [Ev.netUpload]
            let rec1 : ThumbRec :=
              { rec0 with image_url := some url, isGenerating := false }
            if !env.saveOk then
              ⟨500, none, some "save failed", tr4, [filepath], st1⟩
            else
              let st2 := saveTo st1 rec1
              if !env.unlinkOk then
                ⟨500, none, some "unlink failed", tr4, [filepath], st2⟩
              else
                ⟨200, some rec1, none, tr4 ++ [Ev.fsUnlink filepath], [], st2⟩

end TC

/-! ### Lemmas about the provider-fallback loop -/

/-- The trace block of attempt `j`: its backoff sleep (for `j > 0`) followed
by the provider call. -/
def block (j : Nat) : List Ev :=
  (if 0 < j then [Ev.sleep (1000 * 2 ^ (j - 1))] else []) ++ [Ev.netAttempt j]

/-- Concatenation of the trace blocks of a list of attempt indices. -/
def blocks : List Nat → List Ev
  | [] => []
  | j :: js => block j ++ blocks js

theorem attemptsOf_append (a b : List Ev) :
    attemptsOf (a ++ b) = attemptsOf a ++ attemptsOf b :=
  List.filterMap_append a b _

theorem sleepsOf_append (a b : List Ev) :
    sleepsOf (a ++ b) = sleepsOf a ++ sleepsOf b :=
  List.filterMap_append a b _

theorem attemptsOf_block (j : Nat) : attemptsOf (block j) = [j] := by
  by_cases h : 0 < j <;> simp [block, attemptsOf, h]

theorem attemptsOf_blocks (l : List Nat) : attemptsOf (blocks l) = l := by
  induction l with
  | nil => rfl
  | cons j js ih => rw [blocks, attemptsOf_append, attemptsOf_block, ih]; rfl

theorem sleepsOf_block_pos {j : Nat} (h : 0 < j) :
    sleepsOf (block j) = [1000 * 2 ^ (j - 1)] := by
  simp [block, sleepsOf, h]

theorem sleepsOf_blocks (l : List Nat) (h : ∀ j ∈ l, 0 < j) :
    sleepsOf (blocks l) = l.map (fun j => 1000 * 2 ^ (j - 1)) := by
  induction l with
  | nil => rfl
  | cons j js ih =>
    rw [blocks, sleepsOf_append, sleepsOf_block_pos (h j (by simp)),
      ih (fun x hx => h x (by simp [hx]))]
    rfl

theorem range'_map_shift (k : Nat) :
    ∀ s : Nat, (List.range' (s + 1) k).map (fun j => 1000 * 2 ^ (j - 1))
      = (List.range' s k).map (fun j => 1000 * 2 ^ j) := by
  induction k with
  | zero => intro s; rfl
  | succ k ih =>
    intro s
    rw [List.range'_succ, List.range'_succ, List.map_cons, List.map_cons, ih (s + 1)]
    simp

theorem sum_map_pow (k : Nat) :
    ((List.range k).map (fun j => 1000 * 2 ^ j)).sum = 1000 * (2 ^ k - 1) := by
  induction k with
  | zero => simp
  | succ k ih =>
    rw [List.range_succ, List.map_append, List.sum_append, ih]
    have hx : 1 ≤ 2 ^ k := Nat.one_le_two_pow
    simp [pow_succ]
    omega

theorem replicate_append_cons_not_isEmpty (k : Nat) (a : Option Nat)
    (rest : List (Option Nat)) :
    (List.replicate k (none : Option Nat) ++ a :: rest).isEmpty = false := by
  cases k <;> simp [List.replicate]

theorem fallbackRun_first_success (k : Nat) :
    ∀ (i : Nat) (a : Nat) (rest : List (Option Nat)),
    V0.fallbackRun i (List.replicate k none ++ some a :: rest)
      = (blocks (List.range' i (k + 1)), Except.ok a) := by
  induction k with
  | zero =>
    intro i a rest
    simp [V0.fallbackRun, List.range'_succ, blocks, block]
  | succ k ih =>
    intro i a rest
    have hne := replicate_append_cons_not_isEmpty k (some a) rest
    rw [List.replicate_succ, List.cons_append]
    simp only [V0.fallbackRun, hne, ih (i + 1) a rest]
    rw [List.range'_succ]
    simp [blocks, block]

theorem fallbackRun_all_fail :
    ∀ (os : List (Option Nat)) (i : Nat), (∀ o ∈ os, o = none) →
    ∃ msg, msg.isEmpty = false ∧ (V0.fallbackRun i os).2 = Except.error msg := by
  intro os
  induction os with
  | nil => exact fun i _ => ⟨"No image services available", by decide, rfl⟩
  | cons o rest ih =>
    intro i h
    have ho : o = none := h o (by simp)
    subst ho
    by_cases hr : rest.isEmpty
    · exact ⟨"All image services failed", by decide, by simp [V0.fallbackRun, hr]⟩
    · obtain ⟨msg, h1, h2⟩ := ih (i + 1) (fun x hx => h x (by simp [hx]))
      refine ⟨msg, h1, ?_⟩
      simp only [V0.fallbackRun, Bool.not_eq_true] at hr ⊢
      simp [hr, h2]

theorem fallbackRun_no_recordCreate :
    ∀ (os : List (Option Nat)) (i : Nat), Ev.recordCreate ∉ (V0.fallbackRun i os).1 := by
  intro os
  induction os with
  | nil => intro i; simp [V0.fallbackRun]
  | cons o rest ih =>
    intro i
    cases o with
    | some a => by_cases h : 0 < i <;> simp [V0.fallbackRun, h]
    | none =>
      by_cases hr : rest.isEmpty
      · by_cases h : 0 < i <;> simp [V0.fallbackRun, hr, h]
      · by_cases h : 0 < i <;>
          simp [V0.fallbackRun, hr, h, List.mem_append, ih (i + 1)]

theorem retryFetch_all_fail :
    ∀ (os : List (Option Nat)) (i : Nat), (∀ o ∈ os, o = none) →
    ∃ msg, msg.isEmpty = false ∧ (TC.retryFetch i os).2 = Except.error msg := by
  intro os
  induction os with
  | nil => exact fun i _ => ⟨"no attempts", by decide, rfl⟩
  | cons o rest ih =>
    intro i h
    have ho : o = none := h o (by simp)
    subst ho
    by_cases hr : rest.isEmpty
    · exact ⟨"request failed", by decide, by simp [TC.retryFetch, hr]⟩
    · obtain ⟨msg, h1, h2⟩ := ih (i + 1) (fun x hx => h x (by simp [hx]))
      refine ⟨msg, h1, ?_⟩
      simp only [TC.retryFetch, Bool.not_eq_true] at hr ⊢
      simp [hr, h2]

theorem retryFetch_no_recordCreate :
    ∀ (os : List (Option Nat)) (i : Nat), Ev.recordCreate ∉ (TC.retryFetch i os).1 := by
  intro os
  induction os with
  | nil => intro i; simp [TC.retryFetch]
  | cons o rest ih =>
    intro i
    cases o with
    | some a => simp [TC.retryFetch]
    | none =>
      by_cases hr : rest.isEmpty
      · simp [TC.retryFetch, hr]
      · simp [TC.retryFetch, hr, ih (i + 1)]

theorem firstSuccess_decomp :
    ∀ (k : Nat) (outcomes : List (Option Nat)) (a : Nat),
    outcomes.get? k = some (some a) → (∀ j, j < k → outcomes.get? j = some none) →
    ∃ rest, outcomes = List.replicate k none ++ some a :: rest := by
  intro k
  induction k with
  | zero =>
    intro outcomes a h _
    cases outcomes with
    | nil => simp at h
    | cons o os =>
      simp at h
      exact ⟨os, by simp [h]⟩
  | succ k ih =>
    intro outcomes a h hfirst
    cases outcomes with
    | nil => simp at h
    | cons o os =>
      have h0 : o = none := by
        have := hfirst 0 (Nat.succ_pos k)
        simpa using this
      obtain ⟨rest, hrest⟩ :=
        ih os a (by simpa using h)
          (fun j hj => by simpa using hfirst (j + 1) (Nat.succ_lt_succ hj))
      exact ⟨rest, by simp [h0, hrest, List.replicate_succ]⟩

theorem sleepsOf_range'_blocks (k : Nat) :
    sleepsOf (blocks (List.range' 0 (k + 1)))
      = (List.range k).map (fun j => 1000 * 2 ^ j) := by
  rw [List.range'_succ, blocks, sleepsOf_append]
  have h0 : sleepsOf (block 0) = [] := by simp [block, sleepsOf]
  have h1 : ∀ j ∈ List.range' (0 + 1) k, 0 < j := by
    intro j hj
    have := List.mem_range'_1.mp hj
    omega
  rw [h0, sleepsOf_blocks _ h1]
  simpa [List.range_eq_range'] using range'_map_shift k 0

/-- C3: over the ordered provider list, if provider `k` (0-based) is the
first to succeed then providers `0..k-1` were each attempted exactly once in
order, the sleep before attempt `i > 0` is `1000 * 2 ^ (i - 1)` ms (total
backoff before attempt `k` is `1000 * (2 ^ k - 1)` ms), provider `k`'s
payload is returned with no later provider attempted; and if every provider
fails, the acquisition ends in an error and returns no bytes. -/
theorem C3_fallback_first_success_and_exhaustion :
    (∀ (outcomes : List (Option Nat)) (k a : Nat),
        outcomes.get? k = some (some a) →
        (∀ j, j < k → outcomes.get? j = some none) →
        (V0.generateImageWithFallbacks outcomes).2 = Except.ok a
        ∧ attemptsOf (V0.generateImageWithFallbacks outcomes).1 = List.range (k + 1)
        ∧ sleepsOf (V0.generateImageWithFallbacks outcomes).1
            = (List.range k).map (fun j => 1000 * 2 ^ j)
        ∧ (sleepsOf (V0.generateImageWithFallbacks outcomes).1).sum
            = 1000 * (2 ^ k - 1))
    ∧ (∀ outcomes : List (Option Nat), (∀ o ∈ outcomes, o = none) →
        ∃ msg, msg.isEmpty = false
          ∧ (V0.generateImageWithFallbacks outcomes).2 = Except.error msg) := by
  constructor
  · intro outcomes k a hk hfirst
    obtain ⟨rest, hrest⟩ := firstSuccess_decomp k outcomes a hk hfirst
    subst hrest
    rw [V0.generateImageWithFallbacks, fallbackRun_first_success k 0 a rest]
    refine ⟨rfl, ?_, ?_, ?_⟩
    · rw [attemptsOf_blocks, List.range_eq_range']
    · exact sleepsOf_range'_blocks k
    · rw [sleepsOf_range'_blocks k, sum_map_pow]
  · intro outcomes h
    exact fallbackRun_all_fail outcomes 0 h

/-- Witness for C3 at the concrete outcome list `[none, none, some 7, none]`
(provider 2 is the first to succeed) and at `[none]` (all providers fail). -/
theorem C3_witness :
    ((V0.generateImageWithFallbacks [none, none, some 7, none]).2 = Except.ok 7
      ∧ attemptsOf (V0.generateImageWithFallbacks [none, none, some 7, none]).1
          = [0, 1, 2]
      ∧ sleepsOf (V0.generateImageWithFallbacks [none, none, some 7, none]).1
          = [1000, 2000]
      ∧ (sleepsOf (V0.generateImageWithFallbacks [none, none, some 7, none]).1).sum
          = 3000)
    ∧ ∃ msg, (V0.generateImageWithFallbacks [none]).2 = Except.error msg := by
  have h := C3_fallback_first_success_and_exhaustion.1 [none, none, some 7, none] 2 7
    (by decide)
    (by
      intro j hj
      interval_cases j <;> rfl)
  have h2 := C3_fallback_first_success_and_exhaustion.2 [none] (by decide)
  obtain ⟨msg, _, hmsg⟩ := h2
  exact ⟨⟨h.1, h.2.1.trans (by decide), h.2.2.1.trans (by decide),
    h.2.2.2.trans (by decide)⟩, ⟨msg, hmsg⟩⟩

/-! ### Lemmas about the prompt composers -/

theorem ne_empty_of_append (s t : String) (h : 0 < s.length) : s ++ t ≠ "" := by
  intro he
  have h2 := congrArg String.length he
  rw [String.length_append] at h2
  have h3 : ("" : String).length = 0 := rfl
  omega

theorem truthy_some_of_ne {s : String} (h : s ≠ "") : truthy (some s) = true := by
  cases he : s.isEmpty with
  | false => simp [truthy, he]
  | true => exact absurd ((String.isEmpty_iff s).mp he) h

theorem v0_buildPrompt_ne_empty (s c : String) (t up : Option String) :
    V0.buildPrompt s c t up ≠ "" := by
  rw [V0.buildPrompt]
  simp only [String.append_assoc]
  exact ne_empty_of_append _ _ (by decide)

theorem v0_title_verbatim (s c str : String) (up : Option String) (h : str ≠ "") :
    ∃ x y, V0.buildPrompt s c (some str) up = x ++ str ++ y := by
  refine ⟨"Create a " ++ (V0.stylePrompts s).getD "bold thumbnail" ++ " for \"",
    "\"" ++ V0.colorPart c ++ V0.userPart up
      ++ ". YouTube thumbnail, high CTR, 16:9 composition", ?_⟩
  rw [V0.buildPrompt, V0.titlePart, if_pos (truthy_some_of_ne h)]
  simp [String.append_assoc]

theorem v0_unknown_style_default (s c : String) (t up : Option String)
    (hs : V0.stylePrompts s = none) :
    ∃ y, V0.buildPrompt s c t up = "Create a bold thumbnail" ++ y := by
  refine ⟨V0.titlePart t ++ V0.colorPart c ++ V0.userPart up
    ++ ". YouTube thumbnail, high CTR, 16:9 composition", ?_⟩
  rw [V0.buildPrompt, hs]
  have hlit : ("Create a " ++ "bold thumbnail" : String) = "Create a bold thumbnail" := by
    decide
  simp only [Option.getD_none, hlit]
  simp [String.append_assoc]

theorem v0_unknown_color_omitted (s c : String) (t up : Option String)
    (hc : V0.colorSchemeDescriptions c = none) :
    V0.buildPrompt s c t up
      = "Create a " ++ (V0.stylePrompts s).getD "bold thumbnail" ++ V0.titlePart t
          ++ V0.userPart up ++ ". YouTube thumbnail, high CTR, 16:9 composition" := by
  rw [V0.buildPrompt, V0.colorPart, hc]
  simp

theorem tc_buildPrompt_ne_empty (s c a : String) (t up : Option String) :
    TC.buildPrompt s c a t up ≠ "" := by
  rw [TC.buildPrompt]
  simp only [String.append_assoc]
  exact ne_empty_of_append _ _ (by decide)

theorem tc_title_verbatim (s c a str : String) (up : Option String) :
    ∃ x y, TC.buildPrompt s c a (some str) up = x ++ str ++ y := by
  refine ⟨"Create a " ++ (TC.stylePrompts s).getD "bold graphic thumbnail" ++ " for: \"",
    "\"" ++ TC.colorPart c ++ TC.userPart up ++ " Thumbnail " ++ a
      ++ ", visually stunning, high CTR.", ?_⟩
  rw [TC.buildPrompt, TC.interp]
  simp [String.append_assoc]

theorem tc_unknown_style_default (s c a : String) (t up : Option String)
    (hs : TC.stylePrompts s = none) :
    ∃ y, TC.buildPrompt s c a t up = "Create a bold graphic thumbnail" ++ y := by
  refine ⟨" for: \"" ++ TC.interp t ++ "\"" ++ TC.colorPart c ++ TC.userPart up
    ++ " Thumbnail " ++ a ++ ", visually stunning, high CTR.", ?_⟩
  rw [TC.buildPrompt, hs]
  have hlit : ("Create a " ++ "bold graphic thumbnail" : String)
      = "Create a bold graphic thumbnail" := by decide
  simp only [Option.getD_none, hlit]
  simp only [String.append_assoc]

theorem tc_unknown_color_omitted (s c a : String) (t up : Option String)
    (hc : TC.colorSchemeDescriptions c = none) :
    TC.buildPrompt s c a t up
      = "Create a " ++ (TC.stylePrompts s).getD "bold graphic thumbnail" ++ " for: \""
          ++ TC.interp t ++ "\"" ++ TC.userPart up ++ " Thumbnail " ++ a
          ++ ", visually stunning, high CTR." := by
  rw [TC.buildPrompt, TC.colorPart, hc]
  simp

/-- C6: each prompt composer is total (a Lean function — it cannot throw),
always returns a non-empty string, embeds a present title verbatim, uses the
documented default style phrase on an unknown style key, and omits the
color-scheme clause on an unknown color-scheme key.  Stated for both cited
composers: `part_000` (`V0.buildPrompt`) and `ThumbnailController.ts`
(`TC.buildPrompt`). -/
theorem C6_prompt_composer :
    (∀ (s c : String) (t up : Option String), V0.buildPrompt s c t up ≠ "")
    ∧ (∀ (s c str : String) (up : Option String), str ≠ "" →
        ∃ x y, V0.buildPrompt s c (some str) up = x ++ str ++ y)
    ∧ (∀ (s c : String) (t up : Option String), V0.stylePrompts s = none →
        ∃ y, V0.buildPrompt s c t up = "Create a bold thumbnail" ++ y)
    ∧ (∀ (s c : String) (t up : Option String), V0.colorSchemeDescriptions c = none →
        V0.buildPrompt s c t up
          = "Create a " ++ (V0.stylePrompts s).getD "bold thumbnail" ++ V0.titlePart t
              ++ V0.userPart up ++ ". YouTube thumbnail, high CTR, 16:9 composition")
    ∧ (∀ (s c a : String) (t up : Option String), TC.buildPrompt s c a t up ≠ "")
    ∧ (∀ (s c a str : String) (up : Option String),
        ∃ x y, TC.buildPrompt s c a (some str) up = x ++ str ++ y)
    ∧ (∀ (s c a : String) (t up : Option String), TC.stylePrompts s = none →
        ∃ y, TC.buildPrompt s c a t up = "Create a bold graphic thumbnail" ++ y)
    ∧ (∀ (s c a : String) (t up : Option String), TC.colorSchemeDescriptions c = none →
        TC.buildPrompt s c a t up
          = "Create a " ++ (TC.stylePrompts s).getD "bold graphic thumbnail" ++ " for: \""
              ++ TC.interp t ++ "\"" ++ TC.userPart up ++ " Thumbnail " ++ a
              ++ ", visually stunning, high CTR.") :=
  ⟨fun s c t up => v0_buildPrompt_ne_empty s c t up,
   fun s c str up h => v0_title_verbatim s c str up h,
   fun s c t up hs => v0_unknown_style_default s c t up hs,
   fun s c t up hc => v0_unknown_color_omitted s c t up hc,
   fun s c a t up => tc_buildPrompt_ne_empty s c a t up,
   fun s c a str up => tc_title_verbatim s c a str up,
   fun s c a t up hs => tc_unknown_style_default s c a t up hs,
   fun s c a t up hc => tc_unknown_color_omitted s c a t up hc⟩

/-- Witness for C6 at concrete inputs: a present title `T`, the unknown
style key `Funky` and the unknown color-scheme key `plaid`. -/
theorem C6_witness :
    (∃ x y, V0.buildPrompt "Funky" "plaid" (some "T") none = x ++ "T" ++ y)
    ∧ (∃ y, V0.buildPrompt "Funky" "plaid" (some "T") none
        = "Create a bold thumbnail" ++ y)
    ∧ V0.buildPrompt "Funky" "plaid" (some "T") none ≠ ""
    ∧ (∃ y, TC.buildPrompt "Funky" "plaid" "16:9" (some "T") none
        = "Create a bold graphic thumbnail" ++ y) :=
  ⟨C6_prompt_composer.2.1 "Funky" "plaid" "T" none (by decide),
   C6_prompt_composer.2.2.1 "Funky" "plaid" (some "T") none rfl,
   C6_prompt_composer.1 "Funky" "plaid" (some "T") none,
   C6_prompt_composer.2.2.2.2.2.2.1 "Funky" "plaid" "16:9" (some "T") none rfl⟩

/-- C7: aspect-ratio keys in the static lookup table resolve to exactly the
table's dimensions, and every key not in the table resolves to the 16:9
default `1024 × 576`; stated for the four-entry `part_000` table and the
three-entry `ThumbnailController.ts` table (whose table has no `4:3` row, so
`4:3` falls to the default there). -/
theorem C7_aspect_dimensions :
    (V0.dimensions "16:9" = (1024, 576) ∧ V0.dimensions "1:1" = (1024, 1024)
      ∧ V0.dimensions "9:16" = (576, 1024) ∧ V0.dimensions "4:3" = (1024, 768))
    ∧ (∀ a, V0.aspectMap a = none → V0.dimensions a = (1024, 576))
    ∧ (TC.dimensions "16:9" = (1024, 576) ∧ TC.dimensions "1:1" = (1024, 1024)
      ∧ TC.dimensions "9:16" = (576, 1024))
    ∧ (∀ a, TC.aspectMap a = none → TC.dimensions a = (1024, 576)) := by
  refine ⟨⟨by decide, by decide, by decide, by decide⟩, ?_,
    ⟨by decide, by decide, by decide⟩, ?_⟩
  · intro a h
    rw [V0.dimensions, h]
    rfl
  · intro a h
    rw [TC.dimensions, h]
    decide

/-- Witness for C7 at concrete keys outside the tables: `21:9` for the
`part_000` table and `4:3` for the `ThumbnailController.ts` table. -/
theorem C7_witness :
    V0.dimensions "21:9" = (1024, 576) ∧ TC.dimensions "4:3" = (1024, 576) :=
  ⟨C7_aspect_dimensions.2.1 "21:9" rfl, C7_aspect_dimensions.2.2.2 "4:3" rfl⟩

/-! ### Lemmas about the delete handlers -/

theorem queryMatches_some_iff (mid u : String) (r : ThumbRec) :
    queryMatches mid (some u) r = true ↔ r._id = mid ∧ r.userId = u := by
  simp [queryMatches]

theorem queryMatches_none_eq (mid : String) :
    queryMatches mid none = fun r => r._id == mid := by
  funext r
  simp [queryMatches]

theorem eraseP_no_id (mid : String) (p : ThumbRec → Bool)
    (hp : ∀ r, p r = true → r._id = mid) :
    ∀ store : List ThumbRec, (store.map (fun r => r._id)).Nodup →
    (∃ r ∈ store, p r = true) →
    ∀ x ∈ store.eraseP p, x._id ≠ mid := by
  intro store
  induction store with
  | nil => intro _ hex; simp at hex
  | cons r0 rest ih =>
    intro hnd hex
    rw [List.map_cons, List.nodup_cons] at hnd
    cases hp0 : p r0 with
    | true =>
      rw [List.eraseP_cons_of_pos hp0]
      intro x hx hxid
      apply hnd.1
      rw [hp r0 hp0, ← hxid]
      exact List.mem_map_of_mem (fun r => r._id) hx
    | false =>
      rw [List.eraseP_cons_of_neg (by simp [hp0])]
      obtain ⟨r, hr, hpr⟩ := hex
      have hrrest : r ∈ rest := by
        cases hr with
        | head => rw [hpr] at hp0; cases hp0
        | tail _ h => exact h
      have hmid_mem : mid ∈ rest.map (fun r => r._id) :=
        hp r hpr ▸ List.mem_map_of_mem (fun r => r._id) hrrest
      intro x hx
      cases hx with
      | head =>
        intro hxid
        exact hnd.1 (by rw [hxid]; exact hmid_mem)
      | tail _ h => exact ih hnd.2 ⟨r, hrrest, hpr⟩ x h

/-- C2 (amended): with an authenticated session, the delete lookup is scoped
by id and owner in both cited variants, so a record owned by a different
user is never deleted and a miss leaves the store unchanged; in the
`part_000` variant a miss answers 404 and a hit answers 200 with the record
removed (no record with that id remains, ids being unique); the `part_001`
variant behaves identically on the store but answers 200 even on a miss. -/
theorem C2_delete_owner_scoped :
    (∀ (store : List ThumbRec) (mid u : String),
        (∀ r ∈ store, ¬(r._id = mid ∧ r.userId = u)) →
        V0.deleteThumbnail store mid (some u) = ⟨404, store⟩)
    ∧ (∀ (store : List ThumbRec) (mid u : String),
        (store.map (fun r => r._id)).Nodup →
        (∃ r ∈ store, r._id = mid ∧ r.userId = u) →
        (V0.deleteThumbnail store mid (some u)).status = 200
        ∧ ∀ x ∈ (V0.deleteThumbnail store mid (some u)).store, x._id ≠ mid)
    ∧ (∀ (store : List ThumbRec) (mid u : String),
        (∀ r ∈ store, ¬(r._id = mid ∧ r.userId = u)) →
        V1.deleteThumbnail store mid (some u) = ⟨200, store⟩) := by
  have hnone : ∀ (store : List ThumbRec) (mid u : String),
      (∀ r ∈ store, ¬(r._id = mid ∧ r.userId = u)) →
      store.find? (queryMatches mid (some u)) = none := by
    intro store mid u h
    exact List.find?_eq_none.mpr fun x hx hq =>
      h x hx ((queryMatches_some_iff mid u x).mp hq)
  refine ⟨?_, ?_, ?_⟩
  · intro store mid u h
    rw [V0.deleteThumbnail, findOneAndDelete, hnone store mid u h]
  · intro store mid u hnd hex
    obtain ⟨r, hr, hid, hu⟩ := hex
    have hq : queryMatches mid (some u) r = true :=
      (queryMatches_some_iff mid u r).mpr ⟨hid, hu⟩
    have hsome : (store.find? (queryMatches mid (some u))).isSome :=
      List.find?_isSome.mpr ⟨r, hr, hq⟩
    cases hfind : store.find? (queryMatches mid (some u)) with
    | none => rw [hfind] at hsome; cases hsome
    | some r0 =>
      rw [V0.deleteThumbnail, findOneAndDelete, hfind]
      refine ⟨rfl, ?_⟩
      exact eraseP_no_id mid (queryMatches mid (some u))
        (fun x hx => ((queryMatches_some_iff mid u x).mp hx).1)
        store hnd ⟨r, hr, hq⟩
  · intro store mid u h
    rw [V1.deleteThumbnail, findOneAndDelete, hnone store mid u h]

/-- A stored record owned by `alice`. -/
def recA : ThumbRec :=
  ⟨"a", "alice", "", "", "Bold & Graphic", "16:9", "vibrant", true, false, none, none⟩

/-- Counterexample to C2 as stated: against the `part_001` delete handler,
`bob` deletes id `a` which he does not own — no record owned by `bob`
matches, yet the response is 200, not the 404 the claim requires (the store
is at least unchanged). -/
theorem C2_counterexample :
    V1.deleteThumbnail [recA] "a" (some "bob") = ⟨200, [recA]⟩
    ∧ (400 : Nat) + 4 ≠ (V1.deleteThumbnail [recA] "a" (some "bob")).status := by
  decide

/-- Witness for C2 at a concrete store: `alice` deletes her own record
(404-branch exercised at an empty store, 200-branch at `[recA]`). -/
theorem C2_witness :
    V0.deleteThumbnail [] "a" (some "alice") = ⟨404, []⟩
    ∧ (V0.deleteThumbnail [recA] "a" (some "alice")).status = 200
    ∧ ∀ x ∈ (V0.deleteThumbnail [recA] "a" (some "alice")).store, x._id ≠ "a" := by
  refine ⟨C2_delete_owner_scoped.1 [] "a" "alice" (by simp), ?_, ?_⟩
  · exact (C2_delete_owner_scoped.2.1 [recA] "a" "alice" (by decide)
      ⟨recA, by decide, by decide, by decide⟩).1
  · exact (C2_delete_owner_scoped.2.1 [recA] "a" "alice" (by decide)
      ⟨recA, by decide, by decide, by decide⟩).2

/-- C5 (amended): the delete handler has no authentication check.  When the
session carries no identity, the `userId` field of the filter is `undefined`
and Mongoose drops it, so the lookup is scoped by id alone: the `part_000`
handler deletes the first record with the requested id regardless of its
owner and answers 200, answering 404 only when no record with that id exists
at all. -/
theorem C5_delete_unauthenticated_unscoped :
    (∀ (store : List ThumbRec) (mid : String) (r : ThumbRec),
        store.find? (fun x => x._id == mid) = some r →
        (V0.deleteThumbnail store mid none).status = 200
        ∧ (V0.deleteThumbnail store mid none).store
            = store.eraseP (fun x => x._id == mid))
    ∧ (∀ (store : List ThumbRec) (mid : String),
        store.find? (fun x => x._id == mid) = none →
        V0.deleteThumbnail store mid none = ⟨404, store⟩) := by
  constructor
  · intro store mid r hfind
    rw [V0.deleteThumbnail, findOneAndDelete, queryMatches_none_eq, hfind]
    exact ⟨rfl, rfl⟩
  · intro store mid hfind
    rw [V0.deleteThumbnail, findOneAndDelete, queryMatches_none_eq, hfind]

/-! ### Branch lemmas for the generate handlers -/

theorem gIWF_no_recordCreate (os : List (Option Nat)) :
    Ev.recordCreate ∉ (V0.generateImageWithFallbacks os).1 :=
  fallbackRun_no_recordCreate os 0

theorem v0_gen_unauth (env : V0.GenEnv) (req : GenRequest) (store0 : List ThumbRec)
    (hA : truthy req.sessionUserId = false) :
    V0.generateThumbnail env req store0 = ⟨401, none, none, [], [], store0⟩ := by
  simp [V0.generateThumbnail, hA]

theorem v0_gen_createFail (env : V0.GenEnv) (req : GenRequest) (store0 : List ThumbRec)
    (hA : truthy req.sessionUserId = true) (hC : env.createOk = false) :
    V0.generateThumbnail env req store0
      = ⟨500, none, some "create failed", [], [], store0⟩ := by
  simp [V0.generateThumbnail, V0.catchBlock, hA, hC]

theorem v0_gen_acqFail (env : V0.GenEnv) (req : GenRequest) (store0 : List ThumbRec)
    (msg : String) (hA : truthy req.sessionUserId = true) (hC : env.createOk = true)
    (hq : (V0.generateImageWithFallbacks env.providers).2 = Except.error msg) :
    V0.generateThumbnail env req store0
      = V0.catchBlock env (some (mkRec env.newId req)) msg
          (Ev.recordCreate :: (V0.generateImageWithFallbacks env.providers).1) []
          (store0 ++ [mkRec env.newId req]) := by
  simp [V0.generateThumbnail, hA, hC, hq]

theorem v0_gen_writeFail (env : V0.GenEnv) (req : GenRequest) (store0 : List ThumbRec)
    (img : Nat) (hA : truthy req.sessionUserId = true) (hC : env.createOk = true)
    (hq : (V0.generateImageWithFallbacks env.providers).2 = Except.ok img)
    (hW : env.fsWriteOk = false) :
    V0.generateThumbnail env req store0
      = V0.catchBlock env (some (mkRec env.newId req)) "file write failed"
          (Ev.recordCreate :: (V0.generateImageWithFallbacks env.providers).1) []
          (store0 ++ [mkRec env.newId req]) := by
  simp [V0.generateThumbnail, hA, hC, hq, hW]

theorem v0_gen_uploadFail (env : V0.GenEnv) (req : GenRequest) (store0 : List ThumbRec)
    (img : Nat) (hA : truthy req.sessionUserId = true) (hC : env.createOk = true)
    (hq : (V0.generateImageWithFallbacks env.providers).2 = Except.ok img)
    (hW : env.fsWriteOk = true) (hU : env.uploadResult = none) :
    V0.generateThumbnail env req store0
      = V0.catchBlock env (some (mkRec env.newId req)) "upload failed"
          (Ev.recordCreate :: (V0.generateImageWithFallbacks env.providers).1
            ++ [Ev.fsWrite (tmpPath env.now), Ev.netUpload])
          [tmpPath env.now] (store0 ++ [mkRec env.newId req]) := by
  simp [V0.generateThumbnail, hA, hC, hq, hW, hU]

theorem v0_gen_saveFail (env : V0.GenEnv) (req : GenRequest) (store0 : List ThumbRec)
    (img : Nat) (url : String) (hA : truthy req.sessionUserId = true)
    (hC : env.createOk = true)
    (hq : (V0.generateImageWithFallbacks env.providers).2 = Except.ok img)
    (hW : env.fsWriteOk = true) (hU : env.uploadResult = some url)
    (hS : env.saveOk = false) :
    V0.generateThumbnail env req store0
      = V0.catchBlock env
          (some { mkRec env.newId req with image_url := some url, isGenerating := false })
          "save failed"
          (Ev.recordCreate :: (V0.generateImageWithFallbacks env.providers).1
            ++ [Ev.fsWrite (tmpPath env.now), Ev.netUpload])
          [tmpPath env.now] (store0 ++ [mkRec env.newId req]) := by
  simp [V0.generateThumbnail, hA, hC, hq, hW, hU, hS]

theorem v0_gen_unlinkFail (env : V0.GenEnv) (req : GenRequest) (store0 : List ThumbRec)
    (img : Nat) (url : String) (hA : truthy req.sessionUserId = true)
    (hC : env.createOk = true)
    (hq : (V0.generateImageWithFallbacks env.providers).2 = Except.ok img)
    (hW : env.fsWriteOk = true) (hU : env.uploadResult = some url)
    (hS : env.saveOk = true) (hUl : env.unlinkOk = false) :
    V0.generateThumbnail env req store0
      = V0.catchBlock env
          (some { mkRec env.newId req with image_url := some url, isGenerating := false })
          "unlink failed"
          (Ev.recordCreate :: (V0.generateImageWithFallbacks env.providers).1
            ++ [Ev.fsWrite (tmpPath env.now), Ev.netUpload])
          [tmpPath env.now]
          (saveTo (store0 ++ [mkRec env.newId req])
            { mkRec env.newId req with image_url := some url, isGenerating := false }) := by
  simp [V0.generateThumbnail, hA, hC, hq, hW, hU, hS, hUl]

theorem v0_gen_success (env : V0.GenEnv) (req : GenRequest) (store0 : List ThumbRec)
    (img : Nat) (url : String) (hA : truthy req.sessionUserId = true)
    (hC : env.createOk = true)
    (hq : (V0.generateImageWithFallbacks env.providers).2 = Except.ok img)
    (hW : env.fsWriteOk = true) (hU : env.uploadResult = some url)
    (hS : env.saveOk = true) (hUl : env.unlinkOk = true) :
    V0.generateThumbnail env req store0
      = ⟨200, some { mkRec env.newId req with image_url := some url, isGenerating := false },
          none,
          Ev.recordCreate :: (V0.generateImageWithFallbacks env.providers).1
            ++ [Ev.fsWrite (tmpPath env.now), Ev.netUpload, Ev.fsUnlink (tmpPath env.now)],
          [],
          saveTo (store0 ++ [mkRec env.newId req])
            { mkRec env.newId req with image_url := some url, isGenerating := false }⟩ := by
  simp [V0.generateThumbnail, hA, hC, hq, hW, hU, hS, hUl]

theorem tc_gen_unauth (env : TC.TCEnv) (req : GenRequest) (store0 : List ThumbRec)
    (hA : truthy req.sessionUserId = false) :
    TC.generateThumbnail env req store0 = ⟨401, none, none, [], [], store0⟩ := by
  simp [TC.generateThumbnail, hA]

theorem tc_gen_createFail (env : TC.TCEnv) (req : GenRequest) (store0 : List ThumbRec)
    (hA : truthy req.sessionUserId = true) (hC : env.createOk = false) :
    TC.generateThumbnail env req store0
      = ⟨500, none, some "create failed", [], [], store0⟩ := by
  simp [TC.generateThumbnail, hA, hC]

theorem tc_gen_acqFail (env : TC.TCEnv) (req : GenRequest) (store0 : List ThumbRec)
    (msg : String) (hA : truthy req.sessionUserId = true) (hC : env.createOk = true)
    (hq : (TC.retryFetch 0 env.attempts).2 = Except.error msg) :
    TC.generateThumbnail env req store0
      = ⟨500, none, some msg, Ev.recordCreate :: (TC.retryFetch 0 env.attempts).1, [],
          store0 ++ [mkRec env.newId req]⟩ := by
  simp [TC.generateThumbnail, hA, hC, hq]

theorem tc_gen_writeFail (env : TC.TCEnv) (req : GenRequest) (store0 : List ThumbRec)
    (img : Nat) (hA : truthy req.sessionUserId = true) (hC : env.createOk = true)
    (hq : (TC.retryFetch 0 env.attempts).2 = Except.ok img)
    (hW : env.fsWriteOk = false) :
    TC.generateThumbnail env req store0
      = ⟨500, none, some "file write failed",
          Ev.recordCreate :: (TC.retryFetch 0 env.attempts).1, [],
          store0 ++ [mkRec env.newId req]⟩ := by
  simp [TC.generateThumbnail, hA, hC, hq, hW]

theorem tc_gen_uploadFail (env : TC.TCEnv) (req : GenRequest) (store0 : List ThumbRec)
    (img : Nat) (hA : truthy req.sessionUserId = true) (hC : env.createOk = true)
    (hq : (TC.retryFetch 0 env.attempts).2 = Except.ok img)
    (hW : env.fsWriteOk = true) (hU : env.uploadResult = none) :
    TC.generateThumbnail env req store0
      = ⟨500, none, some "upload failed",
          Ev.recordCreate :: (TC.retryFetch 0 env.attempts).1
            ++ [Ev.fsWrite (tmpPath env.now), Ev.netUpload],
          [tmpPath env.now], store0 ++ [mkRec env.newId req]⟩ := by
  simp [TC.generateThumbnail, hA, hC, hq, hW, hU]

theorem tc_gen_saveFail (env : TC.TCEnv) (req : GenRequest) (store0 : List ThumbRec)
    (img : Nat) (url : String) (hA : truthy req.sessionUserId = true)
    (hC : env.createOk = true)
    (hq : (TC.retryFetch 0 env.attempts).2 = Except.ok img)
    (hW : env.fsWriteOk = true) (hU : env.uploadResult = some url)
    (hS : env.saveOk = false) :
    TC.generateThumbnail env req store0
      = ⟨500, none, some "save failed",
          Ev.recordCreate :: (TC.retryFetch 0 env.attempts).1
            ++ [Ev.fsWrite (tmpPath env.now), Ev.netUpload],
          [tmpPath env.now], store0 ++ [mkRec env.newId req]⟩ := by
  simp [TC.generateThumbnail, hA, hC, hq, hW, hU, hS]

theorem tc_gen_unlinkFail (env : TC.TCEnv) (req : GenRequest) (store0 : List ThumbRec)
    (img : Nat) (url : String) (hA : truthy req.sessionUserId = true)
    (hC : env.createOk = true)
    (hq : (TC.retryFetch 0 env.attempts).2 = Except.ok img)
    (hW : env.fsWriteOk = true) (hU : env.uploadResult = some url)
    (hS : env.saveOk = true) (hUl : env.unlinkOk = false) :
    TC.generateThumbnail env req store0
      = ⟨500, none, some "unlink failed",
          Ev.recordCreate :: (TC.retryFetch 0 env.attempts).1
            ++ [Ev.fsWrite (tmpPath env.now), Ev.netUpload],
          [tmpPath env.now],
          saveTo (store0 ++ [mkRec env.newId req])
            { mkRec env.newId req with image_url := some url, isGenerating := false }⟩ := by
  simp [TC.generateThumbnail, hA, hC, hq, hW, hU, hS, hUl]

theorem tc_gen_success (env : TC.TCEnv) (req : GenRequest) (store0 : List ThumbRec)
    (img : Nat) (url : String) (hA : truthy req.sessionUserId = true)
    (hC : env.createOk = true)
    (hq : (TC.retryFetch 0 env.attempts).2 = Except.ok img)
    (hW : env.fsWriteOk = true) (hU : env.uploadResult = some url)
    (hS : env.saveOk = true) (hUl : env.unlinkOk = true) :
    TC.generateThumbnail env req store0
      = ⟨200, some { mkRec env.newId req with image_url := some url, isGenerating := false },
          none,
          Ev.recordCreate :: (TC.retryFetch 0 env.attempts).1
            ++ [Ev.fsWrite (tmpPath env.now), Ev.netUpload, Ev.fsUnlink (tmpPath env.now)],
          [],
          saveTo (store0 ++ [mkRec env.newId req])
            { mkRec env.newId req with image_url := some url, isGenerating := false }⟩ := by
  simp [TC.generateThumbnail, hA, hC, hq, hW, hU, hS, hUl]

/-! ### Concrete fixtures -/

/-- All-success environment for the `part_000` handler. -/
def envOk : V0.GenEnv :=
  ⟨"t1", 0, true, [some 1], true, some "https://res.example/x.png", true, true, true⟩

/-- Environment whose completion save throws. -/
def envSaveFail : V0.GenEnv := { envOk with saveOk := false }

/-- Environment whose storage upload throws. -/
def envUploadFail : V0.GenEnv := { envOk with uploadResult := none }

/-- Environment where every provider fails and the recovery save throws. -/
def envAcqFailNoSave : V0.GenEnv :=
  ⟨"t1", 0, true, [none], true, some "https://res.example/x.png", true, true, false⟩

/-- All-success environment for the `ThumbnailController.ts` handler. -/
def tcEnvOk : TC.TCEnv :=
  ⟨"t1", 0, true, [some 1], true, some "https://res.example/x.png", true, true⟩

/-- `ThumbnailController.ts` environment where all three attempts fail. -/
def tcEnvAcqFail : TC.TCEnv := { tcEnvOk with attempts := [none, none, none] }

/-- An authenticated request with a title and defaulted fields. -/
def reqU : GenRequest := ⟨some "u", some "My Title", none, none, none, none, none⟩

/-- A request whose session carries no identity. -/
def reqNoAuth : GenRequest := ⟨none, some "My Title", none, none, none, none, none⟩

/-- The completed record of `reqU` on the all-success path. -/
def recDone : ThumbRec :=
  { mkRec "t1" reqU with image_url := some "https://res.example/x.png",
                         isGenerating := false }

/-! ### Trace and record shape of the generate handlers -/

theorem v0_trace_shape (env : V0.GenEnv) (req : GenRequest) (store0 : List ThumbRec) :
    (V0.generateThumbnail env req store0).trace = []
    ∨ ((V0.generateThumbnail env req store0).trace.head? = some Ev.recordCreate
        ∧ Ev.recordCreate ∉ (V0.generateThumbnail env req store0).trace.tail) := by
  cases hA : truthy req.sessionUserId with
  | false => rw [v0_gen_unauth env req store0 hA]; left; rfl
  | true =>
    cases hC : env.createOk with
    | false => rw [v0_gen_createFail env req store0 hA hC]; left; rfl
    | true =>
      rcases hq : (V0.generateImageWithFallbacks env.providers).2 with msg | img
      · rw [v0_gen_acqFail env req store0 msg hA hC hq]
        right
        simp [V0.catchBlock, gIWF_no_recordCreate]
      · cases hW : env.fsWriteOk with
        | false =>
          rw [v0_gen_writeFail env req store0 img hA hC hq hW]
          right
          simp [V0.catchBlock, gIWF_no_recordCreate]
        | true =>
          cases hU : env.uploadResult with
          | none =>
            rw [v0_gen_uploadFail env req store0 img hA hC hq hW hU]
            right
            simp [V0.catchBlock, gIWF_no_recordCreate]
          | some url =>
            cases hS : env.saveOk with
            | false =>
              rw [v0_gen_saveFail env req store0 img url hA hC hq hW hU hS]
              right
              simp [V0.catchBlock, gIWF_no_recordCreate]
            | true =>
              cases hUl : env.unlinkOk with
              | false =>
                rw [v0_gen_unlinkFail env req store0 img url hA hC hq hW hU hS hUl]
                right
                simp [V0.catchBlock, gIWF_no_recordCreate]
              | true =>
                rw [v0_gen_success env req store0 img url hA hC hq hW hU hS hUl]
                right
                simp [gIWF_no_recordCreate]

theorem v0_record_terminal (env : V0.GenEnv) (req : GenRequest) (store0 : List ThumbRec) :
    ∀ r, (V0.generateThumbnail env req store0).record = some r →
      r.isGenerating = false ∧ (r.image_url ≠ none ∨ r.error ≠ none) := by
  cases hA : truthy req.sessionUserId with
  | false => rw [v0_gen_unauth env req store0 hA]; simp
  | true =>
    cases hC : env.createOk with
    | false => rw [v0_gen_createFail env req store0 hA hC]; simp
    | true =>
      rcases hq : (V0.generateImageWithFallbacks env.providers).2 with msg | img
      · rw [v0_gen_acqFail env req store0 msg hA hC hq]
        simp [V0.catchBlock]
      · cases hW : env.fsWriteOk with
        | false =>
          rw [v0_gen_writeFail env req store0 img hA hC hq hW]
          simp [V0.catchBlock]
        | true =>
          cases hU : env.uploadResult with
          | none =>
            rw [v0_gen_uploadFail env req store0 img hA hC hq hW hU]
            simp [V0.catchBlock]
          | some url =>
            cases hS : env.saveOk with
            | false =>
              rw [v0_gen_saveFail env req store0 img url hA hC hq hW hU hS]
              simp [V0.catchBlock]
            | true =>
              cases hUl : env.unlinkOk with
              | false =>
                rw [v0_gen_unlinkFail env req store0 img url hA hC hq hW hU hS hUl]
                simp [V0.catchBlock]
              | true =>
                rw [v0_gen_success env req store0 img url hA hC hq hW hU hS hUl]
                simp

theorem tc_trace_shape (env : TC.TCEnv) (req : GenRequest) (store0 : List ThumbRec) :
    (TC.generateThumbnail env req store0).trace = []
    ∨ ((TC.generateThumbnail env req store0).trace.head? = some Ev.recordCreate
        ∧ Ev.recordCreate ∉ (TC.generateThumbnail env req store0).trace.tail) := by
  cases hA : truthy req.sessionUserId with
  | false => rw [tc_gen_unauth env req store0 hA]; left; rfl
  | true =>
    cases hC : env.createOk with
    | false => rw [tc_gen_createFail env req store0 hA hC]; left; rfl
    | true =>
      rcases hq : (TC.retryFetch 0 env.attempts).2 with msg | img
      · rw [tc_gen_acqFail env req store0 msg hA hC hq]
        right
        simp [retryFetch_no_recordCreate]
      · cases hW : env.fsWriteOk with
        | false =>
          rw [tc_gen_writeFail env req store0 img hA hC hq hW]
          right
          simp [retryFetch_no_recordCreate]
        | true =>
          cases hU : env.uploadResult with
          | none =>
            rw [tc_gen_uploadFail env req store0 img hA hC hq hW hU]
            right
            simp [retryFetch_no_recordCreate]
          | some url =>
            cases hS : env.saveOk with
            | false =>
              rw [tc_gen_saveFail env req store0 img url hA hC hq hW hU hS]
              right
              simp [retryFetch_no_recordCreate]
            | true =>
              cases hUl : env.unlinkOk with
              | false =>
                rw [tc_gen_unlinkFail env req store0 img url hA hC hq hW hU hS hUl]
                right
                simp [retryFetch_no_recordCreate]
              | true =>
                rw [tc_gen_success env req store0 img url hA hC hq hW hU hS hUl]
                right
                simp [retryFetch_no_recordCreate]

/-! ### Claims about the generate handlers -/

/-- C1 (amended): in both cited handlers the record is created before any
outbound network call — a nonempty trace begins with the creation event,
which never occurs again.  In the `part_000` handler every record included
in a response is terminal: `isGenerating = false` with at least one of
`image_url`/`error` set — both are set when a failure (for example the
completion save) occurs after the upload URL was assigned, so "never both"
does not hold.  In the `ThumbnailController.ts` handler the catch block does
not touch the record, so when every provider attempt fails the stored record
stays pending: `isGenerating = true` with neither outcome field set. -/
theorem C1_record_creation_and_disposition :
    (∀ (env : V0.GenEnv) (req : GenRequest) (store0 : List ThumbRec),
        ((V0.generateThumbnail env req store0).trace = []
          ∨ ((V0.generateThumbnail env req store0).trace.head? = some Ev.recordCreate
              ∧ Ev.recordCreate ∉ (V0.generateThumbnail env req store0).trace.tail))
        ∧ ∀ r, (V0.generateThumbnail env req store0).record = some r →
            r.isGenerating = false ∧ (r.image_url ≠ none ∨ r.error ≠ none))
    ∧ (∀ (env : TC.TCEnv) (req : GenRequest) (store0 : List ThumbRec),
        (TC.generateThumbnail env req store0).trace = []
        ∨ ((TC.generateThumbnail env req store0).trace.head? = some Ev.recordCreate
            ∧ Ev.recordCreate ∉ (TC.generateThumbnail env req store0).trace.tail))
    ∧ (∀ (env : TC.TCEnv) (req : GenRequest) (store0 : List ThumbRec),
        truthy req.sessionUserId = true → env.createOk = true →
        (∀ o ∈ env.attempts, o = none) →
        (TC.generateThumbnail env req store0).store = store0 ++ [mkRec env.newId req]
        ∧ (mkRec env.newId req).isGenerating = true
        ∧ (mkRec env.newId req).image_url = none
        ∧ (mkRec env.newId req).error = none) := by
  refine ⟨?_, ?_, ?_⟩
  · intro env req store0
    exact ⟨v0_trace_shape env req store0, v0_record_terminal env req store0⟩
  · intro env req store0
    exact tc_trace_shape env req store0
  · intro env req store0 hA hC hall
    obtain ⟨msg, _, hmsg⟩ := retryFetch_all_fail env.attempts 0 hall
    rw [tc_gen_acqFail env req store0 msg hA hC hmsg]
    exact ⟨rfl, rfl, rfl, rfl⟩

/-- Counterexample to C1 as stated: when the completion save throws after a
successful upload, the `part_000` handler's catch block adds an `error` to
the record whose `image_url` is already set, so the final record carries
both outcome fields — the claim's "never both" fails. -/
theorem C1_counterexample :
    (V0.generateThumbnail envSaveFail reqU []).record
      = some ⟨"t1", "u", "My Title", "", "Bold & Graphic", "16:9", "vibrant", true,
          false, some "https://res.example/x.png", some "save failed"⟩
    ∧ ((V0.generateThumbnail envSaveFail reqU []).record.bind ThumbRec.image_url).isSome
        = true
    ∧ ((V0.generateThumbnail envSaveFail reqU []).record.bind ThumbRec.error).isSome
        = true := by
  decide

/-- Witness for C1 at the all-success `part_000` run and at a
`ThumbnailController.ts` run where every attempt fails. -/
theorem C1_witness :
    (recDone.isGenerating = false ∧ (recDone.image_url ≠ none ∨ recDone.error ≠ none))
    ∧ (TC.generateThumbnail tcEnvAcqFail reqU []).store = [] ++ [mkRec "t1" reqU] :=
  ⟨(C1_record_creation_and_disposition.1 envOk reqU []).2 recDone (by decide),
   (C1_record_creation_and_disposition.2.2 tcEnvAcqFail reqU []
      (by decide) (by decide) (by decide)).1⟩

/-- C4: a generate request whose session carries no user identity is
answered 401 with no record created, no store change, and an empty effect
trace (no outbound provider call); stated for both cited handlers. -/
theorem C4_unauthenticated_generate :
    (∀ (env : V0.GenEnv) (req : GenRequest) (store0 : List ThumbRec),
        req.sessionUserId = none →
        V0.generateThumbnail env req store0 = ⟨401, none, none, [], [], store0⟩)
    ∧ (∀ (env : TC.TCEnv) (req : GenRequest) (store0 : List ThumbRec),
        req.sessionUserId = none →
        TC.generateThumbnail env req store0 = ⟨401, none, none, [], [], store0⟩) := by
  constructor
  · intro env req store0 h
    exact v0_gen_unauth env req store0 (by rw [h]; rfl)
  · intro env req store0 h
    exact tc_gen_unauth env req store0 (by rw [h]; rfl)

/-- Witness for C4 at a concrete unauthenticated request. -/
theorem C4_witness :
    V0.generateThumbnail envOk reqNoAuth [] = ⟨401, none, none, [], [], []⟩
    ∧ TC.generateThumbnail tcEnvOk reqNoAuth [] = ⟨401, none, none, [], [], []⟩ :=
  ⟨C4_unauthenticated_generate.1 envOk reqNoAuth [] rfl,
   C4_unauthenticated_generate.2 tcEnvOk reqNoAuth [] rfl⟩

/-- C8: the `part_000` recovery write is best-effort — whether or not the
catch-path save throws, the response (status, record, error message, trace,
filesystem) is unchanged; and concretely, when every provider fails and the
recovery save throws, the request still answers 500 with the original
acquisition error message and the partial record (only the store misses the
failure state). -/
theorem C8_error_save_swallowed :
    (∀ (env : V0.GenEnv) (req : GenRequest) (store0 : List ThumbRec),
        (V0.generateThumbnail { env with errorSaveOk := false } req store0).status
          = (V0.generateThumbnail { env with errorSaveOk := true } req store0).status
        ∧ (V0.generateThumbnail { env with errorSaveOk := false } req store0).record
          = (V0.generateThumbnail { env with errorSaveOk := true } req store0).record
        ∧ (V0.generateThumbnail { env with errorSaveOk := false } req store0).respError
          = (V0.generateThumbnail { env with errorSaveOk := true } req store0).respError
        ∧ (V0.generateThumbnail { env with errorSaveOk := false } req store0).trace
          = (V0.generateThumbnail { env with errorSaveOk := true } req store0).trace
        ∧ (V0.generateThumbnail { env with errorSaveOk := false } req store0).fs
          = (V0.generateThumbnail { env with errorSaveOk := true } req store0).fs)
    ∧ (∀ (env : V0.GenEnv) (req : GenRequest) (store0 : List ThumbRec),
        truthy req.sessionUserId = true → env.createOk = true →
        env.errorSaveOk = false → (∀ o ∈ env.providers, o = none) →
        ∃ msg, msg.isEmpty = false
          ∧ (V0.generateThumbnail env req store0).status = 500
          ∧ (V0.generateThumbnail env req store0).respError = some msg
          ∧ (V0.generateThumbnail env req store0).record
              = some { mkRec env.newId req with isGenerating := false, error := some msg }
          ∧ (V0.generateThumbnail env req store0).store
              = store0 ++ [mkRec env.newId req]) := by
  constructor
  · intro env req store0
    obtain ⟨nid, nw, cok, provs, fwk, upl, sok, ulk, esk⟩ := env
    cases hA : truthy req.sessionUserId with
    | false =>
      rw [v0_gen_unauth _ req store0 hA, v0_gen_unauth _ req store0 hA]
      exact ⟨rfl, rfl, rfl, rfl, rfl⟩
    | true =>
      cases cok with
      | false =>
        rw [v0_gen_createFail _ req store0 hA rfl, v0_gen_createFail _ req store0 hA rfl]
        exact ⟨rfl, rfl, rfl, rfl, rfl⟩
      | true =>
        rcases hq : (V0.generateImageWithFallbacks provs).2 with msg | img
        · rw [v0_gen_acqFail _ req store0 msg hA rfl hq,
            v0_gen_acqFail _ req store0 msg hA rfl hq]
          simp [V0.catchBlock]
        · cases fwk with
          | false =>
            rw [v0_gen_writeFail _ req store0 img hA rfl hq rfl,
              v0_gen_writeFail _ req store0 img hA rfl hq rfl]
            simp [V0.catchBlock]
          | true =>
            cases upl with
            | none =>
              rw [v0_gen_uploadFail _ req store0 img hA rfl hq rfl rfl,
                v0_gen_uploadFail _ req store0 img hA rfl hq rfl rfl]
              simp [V0.catchBlock]
            | some url =>
              cases sok with
              | false =>
                rw [v0_gen_saveFail _ req store0 img url hA rfl hq rfl rfl rfl,
                  v0_gen_saveFail _ req store0 img url hA rfl hq rfl rfl rfl]
                simp [V0.catchBlock]
              | true =>
                cases ulk with
                | false =>
                  rw [v0_gen_unlinkFail _ req store0 img url hA rfl hq rfl rfl rfl rfl,
                    v0_gen_unlinkFail _ req store0 img url hA rfl hq rfl rfl rfl rfl]
                  simp [V0.catchBlock]
                | true =>
                  rw [v0_gen_success _ req store0 img url hA rfl hq rfl rfl rfl rfl,
                    v0_gen_success _ req store0 img url hA rfl hq rfl rfl rfl rfl]
                  exact ⟨rfl, rfl, rfl, rfl, rfl⟩
  · intro env req store0 hA hC hE hall
    obtain ⟨msg, hne, hmsg⟩ := fallbackRun_all_fail env.providers 0 hall
    refine ⟨msg, hne, ?_, ?_, ?_, ?_⟩ <;>
      rw [v0_gen_acqFail env req store0 msg hA hC hmsg]
    · rfl
    · rfl
    · simp [V0.catchBlock, hne]
    · simp [V0.catchBlock, hE]

/-- Witness for C8: the acquisition-failure run with a throwing recovery
save answers the same response as the run whose recovery save succeeds, and
carries the original error message. -/
theorem C8_witness :
    (V0.generateThumbnail { envAcqFailNoSave with errorSaveOk := false } reqU []).record
      = (V0.generateThumbnail { envAcqFailNoSave with errorSaveOk := true } reqU []).record
    ∧ ∃ msg, msg.isEmpty = false
        ∧ (V0.generateThumbnail envAcqFailNoSave reqU []).status = 500
        ∧ (V0.generateThumbnail envAcqFailNoSave reqU []).respError = some msg := by
  refine ⟨(C8_error_save_swallowed.1 envAcqFailNoSave reqU []).2.1, ?_⟩
  obtain ⟨msg, h1, h2, h3, _⟩ :=
    C8_error_save_swallowed.2 envAcqFailNoSave reqU [] (by decide) rfl rfl (by decide)
  exact ⟨msg, h1, h2, h3⟩

/-- C9 (amended): the transient file is deleted only on the full success
path — after the upload, the completion save and the response-side
bookkeeping all succeed; when the upload call throws, control jumps to the
catch block, which performs no file cleanup, and the transient file remains.
Stated for both cited handlers. -/
theorem C9_transient_file_cleanup :
    (∀ (env : V0.GenEnv) (req : GenRequest) (store0 : List ThumbRec) (img : Nat)
        (url : String), truthy req.sessionUserId = true → env.createOk = true →
        (V0.generateImageWithFallbacks env.providers).2 = Except.ok img →
        env.fsWriteOk = true → env.uploadResult = some url → env.saveOk = true →
        env.unlinkOk = true →
        (V0.generateThumbnail env req store0).fs = [])
    ∧ (∀ (env : V0.GenEnv) (req : GenRequest) (store0 : List ThumbRec) (img : Nat),
        truthy req.sessionUserId = true → env.createOk = true →
        (V0.generateImageWithFallbacks env.providers).2 = Except.ok img →
        env.fsWriteOk = true → env.uploadResult = none →
        (V0.generateThumbnail env req store0).fs = [tmpPath env.now]
        ∧ (V0.generateThumbnail env req store0).fs ≠ [])
    ∧ (∀ (env : TC.TCEnv) (req : GenRequest) (store0 : List ThumbRec) (img : Nat)
        (url : String), truthy req.sessionUserId = true → env.createOk = true →
        (TC.retryFetch 0 env.attempts).2 = Except.ok img →
        env.fsWriteOk = true → env.uploadResult = some url → env.saveOk = true →
        env.unlinkOk = true →
        (TC.generateThumbnail env req store0).fs = [])
    ∧ (∀ (env : TC.TCEnv) (req : GenRequest) (store0 : List ThumbRec) (img : Nat),
        truthy req.sessionUserId = true → env.createOk = true →
        (TC.retryFetch 0 env.attempts).2 = Except.ok img →
        env.fsWriteOk = true → env.uploadResult = none →
        (TC.generateThumbnail env req store0).fs = [tmpPath env.now]
        ∧ (TC.generateThumbnail env req store0).fs ≠ []) := by
  refine ⟨?_, ?_, ?_, ?_⟩
  · intro env req store0 img url hA hC hq hW hU hS hUl
    rw [v0_gen_success env req store0 img url hA hC hq hW hU hS hUl]
  · intro env req store0 img hA hC hq hW hU
    rw [v0_gen_uploadFail env req store0 img hA hC hq hW hU]
    simp [V0.catchBlock]
  · intro env req store0 img url hA hC hq hW hU hS hUl
    rw [tc_gen_success env req store0 img url hA hC hq hW hU hS hUl]
  · intro env req store0 img hA hC hq hW hU
    rw [tc_gen_uploadFail env req store0 img hA hC hq hW hU]
    simp

/-- Counterexample to C9 as stated: when the upload call throws, the
transient file written for the request is NOT deleted — it is still present
at the end of the request, although the upload call was made. -/
theorem C9_counterexample :
    (V0.generateThumbnail envUploadFail reqU []).fs = ["images/thumbnail-0.png"]
    ∧ Ev.netUpload ∈ (V0.generateThumbnail envUploadFail reqU []).trace
    ∧ Ev.fsUnlink "images/thumbnail-0.png"
        ∉ (V0.generateThumbnail envUploadFail reqU []).trace := by
  decide

/-- Witness for C9 at the all-success run (file deleted) and the
upload-failure run (file remains), for both handlers. -/
theorem C9_witness :
    (V0.generateThumbnail envOk reqU []).fs = []
    ∧ (V0.generateThumbnail envUploadFail reqU []).fs = [tmpPath 0]
    ∧ (TC.generateThumbnail tcEnvOk reqU []).fs = [] :=
  ⟨C9_transient_file_cleanup.1 envOk reqU [] 1 "https://res.example/x.png"
      (by decide) rfl rfl rfl rfl rfl rfl,
   (C9_transient_file_cleanup.2.1 envUploadFail reqU [] 1
      (by decide) rfl rfl rfl rfl).1,
   C9_transient_file_cleanup.2.2.1 tcEnvOk reqU [] 1 "https://res.example/x.png"
      (by decide) rfl rfl rfl rfl rfl rfl⟩

theorem saveTo_append_new (store0 : List ThumbRec) (r0 r1 : ThumbRec)
    (hid : r0._id = r1._id) (h : ∀ r ∈ store0, r._id ≠ r1._id) :
    saveTo (store0 ++ [r0]) r1 = store0 ++ [r1] := by
  rw [saveTo, List.map_append]
  have h1 : store0.map (fun x => if x._id == r1._id then r1 else x) = store0 := by
    induction store0 with
    | nil => rfl
    | cons y ys ih =>
      rw [List.map_cons]
      rw [if_neg (by simp [h y (by simp)]), ih (fun r hr => h r (by simp [hr]))]
  rw [h1]
  simp [hid]

/-- C10: on the success path the completion update changes only `image_url`
and `isGenerating`; the final record is exactly the created record with
these two fields updated, so `userId`, `title`, `prompt_used`, `style`,
`aspect_ratio`, `color_scheme` and `text_overlay` keep their creation-time
values, in the response and in the persisted store.  Stated for both cited
handlers. -/
theorem C10_success_update_frame :
    (∀ (env : V0.GenEnv) (req : GenRequest) (store0 : List ThumbRec) (img : Nat)
        (url : String), truthy req.sessionUserId = true → env.createOk = true →
        (V0.generateImageWithFallbacks env.providers).2 = Except.ok img →
        env.fsWriteOk = true → env.uploadResult = some url → env.saveOk = true →
        env.unlinkOk = true →
        (V0.generateThumbnail env req store0).status = 200
        ∧ (V0.generateThumbnail env req store0).record
            = some { mkRec env.newId req with image_url := some url,
                                              isGenerating := false }
        ∧ ((∀ r ∈ store0, r._id ≠ env.newId) →
            (V0.generateThumbnail env req store0).store
              = store0 ++ [{ mkRec env.newId req with image_url := some url,
                                                      isGenerating := false }]))
    ∧ (∀ (env : TC.TCEnv) (req : GenRequest) (store0 : List ThumbRec) (img : Nat)
        (url : String), truthy req.sessionUserId = true → env.createOk = true →
        (TC.retryFetch 0 env.attempts).2 = Except.ok img →
        env.fsWriteOk = true → env.uploadResult = some url → env.saveOk = true →
        env.unlinkOk = true →
        (TC.generateThumbnail env req store0).status = 200
        ∧ (TC.generateThumbnail env req store0).record
            = some { mkRec env.newId req with image_url := some url,
                                              isGenerating := false }
        ∧ ((∀ r ∈ store0, r._id ≠ env.newId) →
            (TC.generateThumbnail env req store0).store
              = store0 ++ [{ mkRec env.newId req with image_url := some url,
                                                      isGenerating := false }])) := by
  constructor
  · intro env req store0 img url hA hC hq hW hU hS hUl
    rw [v0_gen_success env req store0 img url hA hC hq hW hU hS hUl]
    refine ⟨rfl, rfl, fun h => ?_⟩
    exact saveTo_append_new store0 _ _ rfl h
  · intro env req store0 img url hA hC hq hW hU hS hUl
    rw [tc_gen_success env req store0 img url hA hC hq hW hU hS hUl]
    refine ⟨rfl, rfl, fun h => ?_⟩
    exact saveTo_append_new store0 _ _ rfl h

/-- Witness for C10 at the all-success runs of both handlers. -/
theorem C10_witness :
    (V0.generateThumbnail envOk reqU []).status = 200
    ∧ (V0.generateThumbnail envOk reqU []).record = some recDone
    ∧ (V0.generateThumbnail envOk reqU []).store = [] ++ [recDone]
    ∧ (TC.generateThumbnail tcEnvOk reqU []).record = some recDone := by
  obtain ⟨h1, h2, h3⟩ :=
    C10_success_update_frame.1 envOk reqU [] 1 "https://res.example/x.png"
      (by decide) rfl rfl rfl rfl rfl rfl
  obtain ⟨_, h4, _⟩ :=
    C10_success_update_frame.2 tcEnvOk reqU [] 1 "https://res.example/x.png"
      (by decide) rfl rfl rfl rfl rfl rfl
  exact ⟨h1, h2, h3 (by simp), h4⟩

/-- Counterexample to C5 as stated: a delete request with no session
identity is not refused — it deletes `alice`'s record and answers 200. -/
theorem C5_counterexample :
    V0.deleteThumbnail [recA] "a" none = ⟨200, []⟩ := by
  decide

/-- Witness for C5 at a concrete store containing only `alice`'s record. -/
theorem C5_witness :
    (V0.deleteThumbnail [recA] "a" none).status = 200
    ∧ (V0.deleteThumbnail [recA] "a" none).store = []
    ∧ V0.deleteThumbnail [recA] "b" none = ⟨404, [recA]⟩ := by
  obtain ⟨h1, h2⟩ :=
    C5_delete_unauthenticated_unscoped.1 [recA] "a" recA (by decide)
  exact ⟨h1, h2.trans (by decide),
    C5_delete_unauthenticated_unscoped.2 [recA] "b" (by decide)⟩

end ThumbnailGo
